import Mathlib

/-!
Shallow embedding of the Elo rating engine from `src/main.rs`.

Ratings (`f32` in the source) are modelled as real numbers; the rating
table (`HashMap<String, f32>`) is modelled as a function from entity
names to optional ratings, with `insert` overwriting any existing entry.
Fallible operations returning `Option` in the source return `Option`
here as well.
-/

/-- Rating table: entity name to rating. Models `type Standings = HashMap<String, f32>`. -/
def Standings : Type := String → Option ℝ

/-- Models `HashMap::insert`, which overwrites any existing entry for the key. -/
def Standings.insert (standings : Standings) (key : String) (v : ℝ) : Standings :=
  fun x => if x = key then some v else standings x

/-- Models `enum SeriesKind { Bo1, Bo3, Bo5 }`. -/
inductive SeriesKind : Type
  | Bo1
  | Bo3
  | Bo5
deriving DecidableEq

/-- Models `struct MatchResult { winner, loser, series }`. -/
structure MatchResult : Type where
  winner : String
  loser : String
  series : SeriesKind

/-- Models `struct KBracket { start: u32, k: f32 }`; `start` is unsigned, so it is a natural number. -/
structure KBracket : Type where
  start : ℕ
  k : ℝ

/-- Models `struct Configuration`. -/
structure Configuration : Type where
  bo1_score : ℝ
  bo3_score : ℝ
  bo5_score : ℝ
  k_brackets : List KBracket

/-- Models `get_series_win_weight_from_config`: the closure mapping each series kind
to the configured score. -/
def get_series_win_weight_from_config (configuration : Configuration) : SeriesKind → ℝ :=
  fun series =>
    match series with
    | SeriesKind.Bo1 => configuration.bo1_score
    | SeriesKind.Bo3 => configuration.bo3_score
    | SeriesKind.Bo5 => configuration.bo5_score

/-- Models `get_expected_probabilities`: the logistic expected-score pair. -/
noncomputable def get_expected_probabilities (rating1 rating2 : ℝ) : ℝ × ℝ :=
  (1 / (1 + (10 : ℝ) ^ ((rating2 - rating1) / 400)),
   1 / (1 + (10 : ℝ) ^ ((rating1 - rating2) / 400)))

/-- The scan loop inside `scaling_for_rating`: return the `k` of the first bracket in
the list whose `start` does not exceed the rating. -/
noncomputable def scanBrackets (rating : ℝ) : List KBracket → Option ℝ
  | [] => none
  | bracket :: rest =>
      if rating ≥ (bracket.start : ℝ) then some bracket.k else scanBrackets rating rest

/-- Models `scaling_for_rating`: sort the brackets by ascending `start` (stable sort,
`sort_by_key`) and scan from the lowest threshold, returning on the first hit. -/
noncomputable def scaling_for_rating (rating : ℝ) (k_brackets : List KBracket) : Option ℝ :=
  scanBrackets rating (k_brackets.mergeSort (fun a b => decide (a.start ≤ b.start)))

/-- Models `combine_ratings`: the arithmetic mean. -/
noncomputable def combine_ratings (rating1 rating2 : ℝ) : ℝ :=
  (rating1 + rating2) / 2

/-- Models `scaling_for_rating_difference`. -/
noncomputable def scaling_for_rating_difference (rating1 rating2 : ℝ)
    (k_brackets : List KBracket) : Option ℝ :=
  scaling_for_rating (combine_ratings rating1 rating2) k_brackets

/-- Models `adjust_ratings`: the Elo update formula. -/
noncomputable def adjust_ratings (rating1 rating2 k actual_score1 actual_score2 : ℝ) : ℝ × ℝ :=
  let expected_probabilities := get_expected_probabilities rating1 rating2
  (rating1 + k * (actual_score1 - expected_probabilities.1),
   rating2 + k * (actual_score2 - expected_probabilities.2))

/-- Models `apply_match_result`: look up both participants, resolve the bracket for the
combined rating, adjust, and write the winner's then the loser's new rating. Every `?`
in the source becomes an `Option.bind`. -/
noncomputable def apply_match_result (result : MatchResult) (standings : Standings)
    (series_win_weight : SeriesKind → ℝ) (k_brackets : List KBracket) : Option Standings :=
  (standings result.winner).bind fun winner_rating =>
    (standings result.loser).bind fun loser_rating =>
      (scaling_for_rating_difference winner_rating loser_rating k_brackets).bind fun k =>
        let new_ratings :=
          adjust_ratings winner_rating loser_rating k (series_win_weight result.series) 0
        some ((standings.insert result.winner new_ratings.1).insert result.loser new_ratings.2)

/-- Models `apply_match_results`: a left fold over the match list with an `Option`
accumulator that stays `none` once any step fails. -/
noncomputable def apply_match_results (results : List MatchResult) (standings : Standings)
    (k_brackets : List KBracket) (series_win_weight : SeriesKind → ℝ) : Option Standings :=
  results.foldl
    (fun acc result =>
      match acc with
      | some standing => apply_match_result result standing series_win_weight k_brackets
      | none => none)
    (some standings)

/-- Written from the specification's words for section 4.5: a strict left-to-right
recursion that threads the accumulated table and aborts the whole sequence as soon as
one match fails. Used to compare the source's fold against the spec's description. -/
noncomputable def applyMatchResultsSpec (results : List MatchResult) (standings : Standings)
    (k_brackets : List KBracket) (series_win_weight : SeriesKind → ℝ) : Option Standings :=
  match results with
  | [] => some standings
  | result :: rest =>
      match apply_match_result result standings series_win_weight k_brackets with
      | some next => applyMatchResultsSpec rest next k_brackets series_win_weight
      | none => none

/-! ## Helper lemmas -/

theorem Standings.insert_self (s : Standings) (key : String) (v : ℝ) :
    s.insert key v key = some v := by
  simp [Standings.insert]

theorem Standings.insert_ne (s : Standings) {x key : String} (v : ℝ) (h : x ≠ key) :
    s.insert key v x = s x := by
  simp [Standings.insert, h]

theorem expected_sum (a b : ℝ) :
    (get_expected_probabilities a b).1 + (get_expected_probabilities a b).2 = 1 := by
  have hpos : (0 : ℝ) < (10 : ℝ) ^ ((b - a) / 400) := Real.rpow_pos_of_pos (by norm_num) _
  have hneg : (10 : ℝ) ^ ((a - b) / 400) = ((10 : ℝ) ^ ((b - a) / 400))⁻¹ := by
    rw [show (a - b) / 400 = -((b - a) / 400) by ring, Real.rpow_neg (by norm_num)]
  simp only [get_expected_probabilities]
  rw [hneg]
  have h1 : (1 : ℝ) + (10 : ℝ) ^ ((b - a) / 400) ≠ 0 := by positivity
  field_simp
  ring

theorem expected_self (a : ℝ) : get_expected_probabilities a a = (1 / 2, 1 / 2) := by
  simp [get_expected_probabilities, sub_self, zero_div, Real.rpow_zero]
  norm_num

theorem scanBrackets_eq_none (rating : ℝ) (l : List KBracket)
    (h : ∀ b ∈ l, ¬ rating ≥ (b.start : ℝ)) : scanBrackets rating l = none := by
  induction l with
  | nil => rfl
  | cons b rest ih =>
      simp only [scanBrackets]
      rw [if_neg (h b (List.mem_cons_self b rest))]
      exact ih fun b' hb' => h b' (List.mem_cons_of_mem b hb')

theorem scaling_single (b : KBracket) (rating : ℝ) (h : (b.start : ℝ) ≤ rating) :
    scaling_for_rating rating [b] = some b.k := by
  simp [scaling_for_rating, scanBrackets, h]

theorem combine_self (r : ℝ) : combine_ratings r r = r := by
  simp [combine_ratings]

theorem apply_match_result_eq_some (result : MatchResult) (standings : Standings)
    (series_win_weight : SeriesKind → ℝ) (k_brackets : List KBracket) (rw rl k : ℝ)
    (h1 : standings result.winner = some rw) (h2 : standings result.loser = some rl)
    (h3 : scaling_for_rating_difference rw rl k_brackets = some k) :
    apply_match_result result standings series_win_weight k_brackets =
      some ((standings.insert result.winner
          (rw + k * (series_win_weight result.series - (get_expected_probabilities rw rl).1))).insert
        result.loser (rl + k * (0 - (get_expected_probabilities rw rl).2))) := by
  simp [apply_match_result, h1, h2, h3, adjust_ratings]

theorem apply_match_results_from_none (results : List MatchResult)
    (k_brackets : List KBracket) (series_win_weight : SeriesKind → ℝ) :
    results.foldl
      (fun acc result =>
        match acc with
        | some standing => apply_match_result result standing series_win_weight k_brackets
        | none => none)
      (none : Option Standings) = none := by
  induction results with
  | nil => rfl
  | cons r rest ih => simpa using ih

theorem apply_match_results_cons (r : MatchResult) (rest : List MatchResult)
    (standings : Standings) (k_brackets : List KBracket) (series_win_weight : SeriesKind → ℝ) :
    apply_match_results (r :: rest) standings k_brackets series_win_weight =
      match apply_match_result r standings series_win_weight k_brackets with
      | some next => apply_match_results rest next k_brackets series_win_weight
      | none => none := by
  simp only [apply_match_results, List.foldl_cons]
  cases apply_match_result r standings series_win_weight k_brackets with
  | none => exact apply_match_results_from_none rest k_brackets series_win_weight
  | some next => rfl

/-! ## Concrete fixtures used by witnesses -/

/-- A three-entity table with every rating equal to 1000. -/
noncomputable def table3 : Standings :=
  fun x =>
    if x = "A" then some 1000
    else if x = "B" then some 1000
    else if x = "C" then some 1000
    else none

/-- A weight function assigning score 1 to every series kind. -/
noncomputable def weight1 : SeriesKind → ℝ := fun _ => 1

/-- A single all-covering bracket with `start = 0` and `k = 10`. -/
def bracket0 : List KBracket := [⟨0, 10⟩]

/-- A two-entity table whose ratings are both negative. -/
noncomputable def tableNeg : Standings :=
  fun x => if x = "A" then some (-10) else if x = "B" then some (-10) else none

theorem table3_A : table3 "A" = some 1000 := by simp [table3]

theorem table3_B : table3 "B" = some 1000 := by simp [table3]

theorem table3_C : table3 "C" = some 1000 := by simp [table3]

theorem scaling_1000_bracket0 : scaling_for_rating 1000 bracket0 = some 10 := by
  simpa [bracket0] using scaling_single ⟨0, 10⟩ 1000 (by norm_num)

theorem scaling_diff_1000_bracket0 :
    scaling_for_rating_difference 1000 1000 bracket0 = some 10 := by
  show scaling_for_rating (combine_ratings 1000 1000) bracket0 = some 10
  rw [combine_self]
  exact scaling_1000_bracket0

theorem scaling_diff_bracket0 (a b : ℝ) (h : 0 ≤ a + b) :
    scaling_for_rating_difference a b bracket0 = some 10 := by
  have h2 : (((0, 10) : ℕ × ℝ).1 : ℝ) ≤ combine_ratings a b := by
    simp [combine_ratings]
    linarith
  simpa [bracket0, scaling_for_rating_difference] using
    scaling_single ⟨0, 10⟩ (combine_ratings a b) h2

/-- First table of the ordering-sensitivity fixture, forward order: after `A beats B`. -/
noncomputable def fwd1 : Standings := (table3.insert "A" 1005).insert "B" 995

/-- Second table of the ordering-sensitivity fixture, forward order: after `B beats C`. -/
noncomputable def fwd2 : Standings :=
  (fwd1.insert "B"
      (995 + 10 * (weight1 SeriesKind.Bo1 - (get_expected_probabilities 995 1000).1))).insert
    "C" (1000 + 10 * (0 - (get_expected_probabilities 995 1000).2))

/-- First table of the ordering-sensitivity fixture, reverse order: after `B beats C`. -/
noncomputable def rev1 : Standings := (table3.insert "B" 1005).insert "C" 995

/-- Second table of the ordering-sensitivity fixture, reverse order: after `A beats B`. -/
noncomputable def rev2 : Standings :=
  (rev1.insert "A"
      (1000 + 10 * (weight1 SeriesKind.Bo1 - (get_expected_probabilities 1000 1005).1))).insert
    "B" (1005 + 10 * (0 - (get_expected_probabilities 1000 1005).2))

theorem fwd_step1 :
    apply_match_result ⟨"A", "B", SeriesKind.Bo1⟩ table3 weight1 bracket0 = some fwd1 := by
  rw [apply_match_result_eq_some ⟨"A", "B", SeriesKind.Bo1⟩ table3 weight1 bracket0
    1000 1000 10 table3_A table3_B scaling_diff_1000_bracket0]
  simp only [fwd1, weight1]
  norm_num [expected_self]

theorem fwd1_B : fwd1 "B" = some 995 := Standings.insert_self _ _ _

theorem fwd1_C : fwd1 "C" = some 1000 := by
  show ((table3.insert "A" 1005).insert "B" 995) "C" = some 1000
  rw [Standings.insert_ne _ _ (by decide : ("C" : String) ≠ "B"),
    Standings.insert_ne _ _ (by decide : ("C" : String) ≠ "A")]
  exact table3_C

theorem fwd1_A : fwd1 "A" = some 1005 := by
  show ((table3.insert "A" 1005).insert "B" 995) "A" = some 1005
  rw [Standings.insert_ne _ _ (by decide : ("A" : String) ≠ "B")]
  exact Standings.insert_self _ _ _

theorem fwd_step2 :
    apply_match_result ⟨"B", "C", SeriesKind.Bo1⟩ fwd1 weight1 bracket0 = some fwd2 := by
  rw [apply_match_result_eq_some ⟨"B", "C", SeriesKind.Bo1⟩ fwd1 weight1 bracket0
    995 1000 10 fwd1_B fwd1_C (scaling_diff_bracket0 995 1000 (by norm_num))]
  rfl

theorem fwd2_A : fwd2 "A" = some 1005 := by
  simp only [fwd2]
  rw [Standings.insert_ne _ _ (by decide : ("A" : String) ≠ "C"),
    Standings.insert_ne _ _ (by decide : ("A" : String) ≠ "B")]
  exact fwd1_A

theorem rev_step1 :
    apply_match_result ⟨"B", "C", SeriesKind.Bo1⟩ table3 weight1 bracket0 = some rev1 := by
  rw [apply_match_result_eq_some ⟨"B", "C", SeriesKind.Bo1⟩ table3 weight1 bracket0
    1000 1000 10 table3_B table3_C scaling_diff_1000_bracket0]
  simp only [rev1, weight1]
  norm_num [expected_self]

theorem rev1_A : rev1 "A" = some 1000 := by
  show ((table3.insert "B" 1005).insert "C" 995) "A" = some 1000
  rw [Standings.insert_ne _ _ (by decide : ("A" : String) ≠ "C"),
    Standings.insert_ne _ _ (by decide : ("A" : String) ≠ "B")]
  exact table3_A

theorem rev1_B : rev1 "B" = some 1005 := by
  show ((table3.insert "B" 1005).insert "C" 995) "B" = some 1005
  rw [Standings.insert_ne _ _ (by decide : ("B" : String) ≠ "C")]
  exact Standings.insert_self _ _ _

theorem rev_step2 :
    apply_match_result ⟨"A", "B", SeriesKind.Bo1⟩ rev1 weight1 bracket0 = some rev2 := by
  rw [apply_match_result_eq_some ⟨"A", "B", SeriesKind.Bo1⟩ rev1 weight1 bracket0
    1000 1005 10 rev1_A rev1_B (scaling_diff_bracket0 1000 1005 (by norm_num))]
  rfl

theorem rev2_A :
    rev2 "A" = some (1000 + 10 * (weight1 SeriesKind.Bo1 -
      (get_expected_probabilities 1000 1005).1)) := by
  simp only [rev2]
  rw [Standings.insert_ne _ _ (by decide : ("A" : String) ≠ "B")]
  exact Standings.insert_self _ _ _

theorem rev2_A_gt :
    (1005 : ℝ) < 1000 + 10 * (weight1 SeriesKind.Bo1 -
      (get_expected_probabilities 1000 1005).1) := by
  have hu : (1 : ℝ) < (10 : ℝ) ^ (((1005 : ℝ) - 1000) / 400) := by
    rw [show ((1005 : ℝ) - 1000) / 400 = 1 / 80 by norm_num]
    exact (Real.one_lt_rpow_iff_of_pos (by norm_num)).mpr (Or.inl ⟨by norm_num, by norm_num⟩)
  have h2 : 1 / (1 + (10 : ℝ) ^ (((1005 : ℝ) - 1000) / 400)) < 1 / 2 := by
    rw [div_lt_div_iff₀ (by linarith) (by norm_num)]
    linarith
  simp only [get_expected_probabilities, weight1]
  linarith

/-! ## Claims -/

/-- Claim C1: the spec says `scaling_for_rating` returns the `k` of the last bracket in
ascending `start` order whose `start <= rating`, so rating 1600 over brackets
`[{start:0,k:10},{start:1500,k:5}]` should resolve to `k = 5`. The code instead returns
on the first bracket of the ascending scan whose `start <= rating`, so rating 1600
resolves to `k = 10`: every bracket above the lowest satisfied threshold is unreachable. -/
theorem scaling_for_rating_returns_lowest_bracket :
    scaling_for_rating 1600 [⟨0, 10⟩, ⟨1500, 5⟩] = some 10 ∧
    scaling_for_rating 1200 [⟨0, 10⟩, ⟨1500, 5⟩] = some 10 ∧
    scaling_for_rating (-5) [⟨0, 10⟩, ⟨1500, 5⟩] = none ∧
    (10 : ℝ) ≠ 5 := by
  have hms : List.mergeSort [KBracket.mk 0 10, KBracket.mk 1500 5]
      (fun a b => decide (a.start ≤ b.start)) = [KBracket.mk 0 10, KBracket.mk 1500 5] :=
    List.mergeSort_of_sorted (by simp)
  refine ⟨?_, ?_, ?_, by norm_num⟩
  · simp only [scaling_for_rating, hms, scanBrackets]
    norm_num
  · simp only [scaling_for_rating, hms, scanBrackets]
    norm_num
  · simp only [scaling_for_rating, hms, scanBrackets]
    norm_num

/-- Claim C2: `apply_match_results` is a strict left-to-right fold: it coincides with the
spec's recursion that threads the accumulated table and aborts on the first failing match,
and over any split `pre ++ post` the result is the `Option.bind` of the two halves, so a
Skip anywhere yields `none` for the whole sequence with no partial result. -/
theorem apply_match_results_strict_fold :
    (∀ (results : List MatchResult) (standings : Standings) (k_brackets : List KBracket)
        (series_win_weight : SeriesKind → ℝ),
      apply_match_results results standings k_brackets series_win_weight =
        applyMatchResultsSpec results standings k_brackets series_win_weight) ∧
    (∀ (pre post : List MatchResult) (standings : Standings) (k_brackets : List KBracket)
        (series_win_weight : SeriesKind → ℝ),
      apply_match_results (pre ++ post) standings k_brackets series_win_weight =
        (apply_match_results pre standings k_brackets series_win_weight).bind
          fun t => apply_match_results post t k_brackets series_win_weight) := by
  constructor
  · intro results
    induction results with
    | nil => intro s bs f; rfl
    | cons r rest ih =>
        intro s bs f
        rw [apply_match_results_cons]
        simp only [applyMatchResultsSpec]
        cases apply_match_result r s f bs with
        | none => rfl
        | some next => exact ih next bs f
  · intro pre
    induction pre with
    | nil => intro post s bs f; rfl
    | cons r rest ih =>
        intro post s bs f
        rw [List.cons_append, apply_match_results_cons, apply_match_results_cons]
        cases apply_match_result r s f bs with
        | none => rfl
        | some next => exact ih post next bs f

/-- Claim C3: `adjust_ratings` implements exactly the weighted Elo update formula, and on
the concrete input `(1000, 1000, 20, 1, 0)` it returns `(1010, 990)`. -/
theorem adjust_ratings_formula :
    (∀ r1 r2 k s1 s2 : ℝ, adjust_ratings r1 r2 k s1 s2 =
      (r1 + k * (s1 - (get_expected_probabilities r1 r2).1),
       r2 + k * (s2 - (get_expected_probabilities r1 r2).2))) ∧
    adjust_ratings 1000 1000 20 1 0 = (1010, 990) := by
  constructor
  · intro r1 r2 k s1 s2; rfl
  · simp [adjust_ratings, expected_self]
    norm_num

/-- Claim C4: `apply_match_result` returns `none` (Skip) exactly when the winner or the
loser is absent from the table, or both are present but no bracket resolves for their
combined rating; being a pure function it produces no table at all in that case. -/
theorem apply_match_result_skip_iff :
    ∀ (result : MatchResult) (standings : Standings) (series_win_weight : SeriesKind → ℝ)
      (k_brackets : List KBracket),
      apply_match_result result standings series_win_weight k_brackets = none ↔
        standings result.winner = none ∨ standings result.loser = none ∨
          ∃ w l, standings result.winner = some w ∧ standings result.loser = some l ∧
            scaling_for_rating_difference w l k_brackets = none := by
  intro result standings series_win_weight k_brackets
  cases h1 : standings result.winner with
  | none => simp [apply_match_result, h1]
  | some w =>
    cases h2 : standings result.loser with
    | none => simp [apply_match_result, h1, h2]
    | some l =>
      cases h3 : scaling_for_rating_difference w l k_brackets with
      | none => simp [apply_match_result, h1, h2, h3]
      | some k => simp [apply_match_result, h1, h2, h3]

/-- Claim C6: the expected probabilities are exactly the two logistic expressions, they
sum to one, and equal ratings give the pair `(1/2, 1/2)`. -/
theorem get_expected_probabilities_spec :
    ∀ a b : ℝ,
      (get_expected_probabilities a b).1 = 1 / (1 + (10 : ℝ) ^ ((b - a) / 400)) ∧
      (get_expected_probabilities a b).2 = 1 / (1 + (10 : ℝ) ^ ((a - b) / 400)) ∧
      (get_expected_probabilities a b).1 + (get_expected_probabilities a b).2 = 1 ∧
      get_expected_probabilities a a = (1 / 2, 1 / 2) :=
  fun a b => ⟨rfl, rfl, expected_sum a b, expected_self a⟩

/-- Claim C5: when `apply_match_result` succeeds, the returned table agrees with the
input table on every key other than the match's winner and loser. -/
theorem apply_match_result_frame :
    ∀ (result : MatchResult) (standings : Standings) (series_win_weight : SeriesKind → ℝ)
      (k_brackets : List KBracket) (new_standings : Standings),
      apply_match_result result standings series_win_weight k_brackets = some new_standings →
      ∀ x, x ≠ result.winner → x ≠ result.loser → new_standings x = standings x := by
  intro result standings f k_brackets new_standings h x hxw hxl
  cases h1 : standings result.winner with
  | none => simp [apply_match_result, h1] at h
  | some w =>
    cases h2 : standings result.loser with
    | none => simp [apply_match_result, h1, h2] at h
    | some l =>
      cases h3 : scaling_for_rating_difference w l k_brackets with
      | none => simp [apply_match_result, h1, h2, h3] at h
      | some k =>
        rw [apply_match_result_eq_some result standings f k_brackets w l k h1 h2 h3] at h
        injection h with h'
        subst h'
        rw [Standings.insert_ne _ _ hxl, Standings.insert_ne _ _ hxw]

/-- Witness for claim C5 at a concrete success: applying `A beats B` to `table3` succeeds
with result `fwd1`, and the entry of the untouched entity `C` is carried over unchanged. -/
theorem apply_match_result_frame_witness :
    apply_match_result ⟨"A", "B", SeriesKind.Bo1⟩ table3 weight1 bracket0 = some fwd1 ∧
      fwd1 "C" = table3 "C" :=
  ⟨fwd_step1,
    apply_match_result_frame ⟨"A", "B", SeriesKind.Bo1⟩ table3 weight1 bracket0 fwd1 fwd_step1
      "C" (by decide) (by decide)⟩

/-- Claim C7: the weight function from a configuration is the total lookup sending each
series kind to its configured score, and in every successful match update the loser's
entry is computed with actual score 0. -/
theorem series_win_weight_total_and_loser_scores_zero :
    (∀ c : Configuration,
      get_series_win_weight_from_config c SeriesKind.Bo1 = c.bo1_score ∧
      get_series_win_weight_from_config c SeriesKind.Bo3 = c.bo3_score ∧
      get_series_win_weight_from_config c SeriesKind.Bo5 = c.bo5_score) ∧
    (∀ (result : MatchResult) (standings : Standings) (series_win_weight : SeriesKind → ℝ)
        (k_brackets : List KBracket) (w l k : ℝ),
      standings result.winner = some w → standings result.loser = some l →
      scaling_for_rating_difference w l k_brackets = some k →
      (apply_match_result result standings series_win_weight k_brackets).map
          (fun t => t result.loser) =
        some (some (l + k * (0 - (get_expected_probabilities w l).2)))) := by
  constructor
  · intro c; exact ⟨rfl, rfl, rfl⟩
  · intro result standings f k_brackets w l k h1 h2 h3
    rw [apply_match_result_eq_some result standings f k_brackets w l k h1 h2 h3]
    simp only [Option.map_some']
    rw [Standings.insert_self]

/-- Witness for claim C7: a concrete configuration lookup and a concrete successful update
whose loser entry carries actual score 0. -/
theorem series_win_weight_witness :
    get_series_win_weight_from_config ⟨2, 3, 5, []⟩ SeriesKind.Bo3 = 3 ∧
    (apply_match_result ⟨"A", "B", SeriesKind.Bo1⟩ table3 weight1 bracket0).map
        (fun t => t "B") =
      some (some (1000 + 10 * (0 - (get_expected_probabilities 1000 1000).2))) :=
  ⟨(series_win_weight_total_and_loser_scores_zero.1 ⟨2, 3, 5, []⟩).2.1,
    series_win_weight_total_and_loser_scores_zero.2 ⟨"A", "B", SeriesKind.Bo1⟩ table3 weight1
      bracket0 1000 1000 10 table3_A table3_B scaling_diff_1000_bracket0⟩

/-- Claim C9: bracket thresholds are unsigned, so every rating strictly below zero
resolves no bracket, and a match of two present participants whose mean rating is
negative is skipped. -/
theorem scaling_for_rating_negative_none :
    (∀ rating : ℝ, rating < 0 → ∀ k_brackets, scaling_for_rating rating k_brackets = none) ∧
    (∀ (result : MatchResult) (standings : Standings) (series_win_weight : SeriesKind → ℝ)
        (k_brackets : List KBracket) (w l : ℝ),
      standings result.winner = some w → standings result.loser = some l →
      combine_ratings w l < 0 →
      apply_match_result result standings series_win_weight k_brackets = none) := by
  have hneg : ∀ rating : ℝ, rating < 0 →
      ∀ k_brackets, scaling_for_rating rating k_brackets = none := by
    intro rating hr k_brackets
    apply scanBrackets_eq_none
    intro b _
    exact not_le.mpr (lt_of_lt_of_le hr (Nat.cast_nonneg b.start))
  refine ⟨hneg, ?_⟩
  intro result standings f k_brackets w l hw hl hcomb
  simp [apply_match_result, hw, hl, scaling_for_rating_difference,
    hneg (combine_ratings w l) hcomb k_brackets]

/-- Witness for claim C9: rating `-5` resolves no bracket even under an all-covering
bracket set, and a match between two entities rated `-10` is skipped. -/
theorem scaling_for_rating_negative_none_witness :
    scaling_for_rating (-5) bracket0 = none ∧
    apply_match_result ⟨"A", "B", SeriesKind.Bo1⟩ tableNeg weight1 bracket0 = none :=
  ⟨scaling_for_rating_negative_none.1 (-5) (by norm_num) bracket0,
    scaling_for_rating_negative_none.2 ⟨"A", "B", SeriesKind.Bo1⟩ tableNeg weight1 bracket0
      (-10) (-10) (by simp [tableNeg]) (by simp [tableNeg]) (by norm_num [combine_ratings])⟩

/-- Claim C10: a self-match (winner equals loser, entity present, bracket resolving) is
accepted, and the loser-side insert overwrites the winner-side one, leaving the entity at
`r + k * (0 - 1/2) = r - k/2`. -/
theorem apply_match_result_self_match :
    ∀ (e : String) (r : ℝ) (sk : SeriesKind) (standings : Standings)
      (series_win_weight : SeriesKind → ℝ) (k_brackets : List KBracket) (k : ℝ),
      standings e = some r → scaling_for_rating r k_brackets = some k →
      (apply_match_result ⟨e, e, sk⟩ standings series_win_weight k_brackets).map
          (fun t => t e) =
        some (some (r + k * (0 - 1 / 2))) ∧ r + k * (0 - 1 / 2) = r - k / 2 := by
  intro e r sk standings f k_brackets k he hk
  have h3 : scaling_for_rating_difference r r k_brackets = some k := by
    show scaling_for_rating (combine_ratings r r) k_brackets = some k
    rw [combine_self]
    exact hk
  refine ⟨?_, by ring⟩
  rw [apply_match_result_eq_some ⟨e, e, sk⟩ standings f k_brackets r r k he he h3]
  simp only [Option.map_some']
  rw [Standings.insert_self, expected_self]

/-- Witness for claim C10: the self-match `A beats A` on `table3` leaves `A` at
`1000 - 10/2`. -/
theorem apply_match_result_self_match_witness :
    (apply_match_result ⟨"A", "A", SeriesKind.Bo1⟩ table3 weight1 bracket0).map
        (fun t => t "A") =
      some (some ((1000 : ℝ) + 10 * (0 - 1 / 2))) ∧
      (1000 : ℝ) + 10 * (0 - 1 / 2) = 1000 - 10 / 2 :=
  apply_match_result_self_match "A" 1000 SeriesKind.Bo1 table3 weight1 bracket0 10
    table3_A scaling_1000_bracket0

/-- Claim C8: the order of the match list is observable. Over the fixture where every
entity starts at 1000, running `A beats B` then `B beats C` and running the two matches
in the opposite order produce different final tables: in the first order `A` is adjusted
against a 1000-rated `B`, in the second against a 1005-rated `B`. -/
theorem apply_match_results_order_sensitive :
    ∃ (standings : Standings) (m1 m2 : MatchResult) (k_brackets : List KBracket)
      (series_win_weight : SeriesKind → ℝ),
      apply_match_results [m1, m2] standings k_brackets series_win_weight ≠
        apply_match_results [m2, m1] standings k_brackets series_win_weight := by
  refine ⟨table3, ⟨"A", "B", SeriesKind.Bo1⟩, ⟨"B", "C", SeriesKind.Bo1⟩, bracket0, weight1, ?_⟩
  have hF : apply_match_results [⟨"A", "B", SeriesKind.Bo1⟩, ⟨"B", "C", SeriesKind.Bo1⟩]
      table3 bracket0 weight1 = some fwd2 := by
    rw [apply_match_results_cons, fwd_step1]
    show apply_match_results [⟨"B", "C", SeriesKind.Bo1⟩] fwd1 bracket0 weight1 = some fwd2
    rw [apply_match_results_cons, fwd_step2]
    rfl
  have hR : apply_match_results [⟨"B", "C", SeriesKind.Bo1⟩, ⟨"A", "B", SeriesKind.Bo1⟩]
      table3 bracket0 weight1 = some rev2 := by
    rw [apply_match_results_cons, rev_step1]
    show apply_match_results [⟨"A", "B", SeriesKind.Bo1⟩] rev1 bracket0 weight1 = some rev2
    rw [apply_match_results_cons, rev_step2]
    rfl
  intro heq
  rw [hF, hR] at heq
  have htab : fwd2 = rev2 := Option.some.inj heq
  have hA : fwd2 "A" = rev2 "A" := by rw [htab]
  rw [fwd2_A, rev2_A] at hA
  have hval : (1005 : ℝ) = 1000 + 10 * (weight1 SeriesKind.Bo1 -
      (get_expected_probabilities 1000 1005).1) := Option.some.inj hA
  have := rev2_A_gt
  linarith
